import Mathlib

/-!
Shallow embedding of the climate-data aggregation engine of
`scripts/fetch_climate_data.py` (process_monthly_data, _compute_variability,
_std, and the batch loop of main), together with theorems settling the
specification claims about it.

Monthly raw values are modelled exactly: a period key either is absent from
the parameter's mapping, holds an explicit null, or holds a rational number.
Python float arithmetic is idealised as exact rational/real arithmetic, and
the float `round` builtin as round-half-to-even on the exact value.
-/

namespace ClimateFetch

/-- A value stored under a period key in the raw API response: either a
number or an explicit JSON null. Absence of the key is modelled by the
surrounding `Option`. -/
inductive RawVal where
  | num (q : ℚ)
  | null
deriving DecidableEq

/-- One parameter's period mapping: `pd y m` is the entry stored under the
key "YYYYMM" (`none` when the key is absent). -/
abbrev PData := ℕ → ℕ → Option RawVal

/-- The `properties.parameter` container: parameter name to period mapping;
`none` models a parameter that is not in the response. -/
abbrev RawRecord := String → Option PData

/-- Embeds `params_data[param].get(key, -999)`: an absent key yields the
sentinel number -999. -/
def getRaw (pd : PData) (y m : ℕ) : RawVal :=
  (pd y m).getD (RawVal.num (-999))

/-- Embeds the filter `if val != -999 and val is not None`: yields the
numeric value when it passes, `none` when the entry is the sentinel, null,
or absent. -/
def presentVal (pd : PData) (y m : ℕ) : Option ℚ :=
  match getRaw pd y m with
  | RawVal.num q => if q = -999 then none else some q
  | RawVal.null => none

/-- Embeds `range(start_year, end_year + 1)`. -/
def yearRange (sY eY : ℕ) : List ℕ := List.range' sY (eY + 1 - sY)

/-- Embeds `range(1, 13)`, the month loop. -/
def monthNums : List ℕ := List.range' 1 12

def MONTH_NAMES : List String :=
  ["Jan", "Feb", "Mar", "Apr", "May", "Jun",
   "Jul", "Aug", "Sep", "Oct", "Nov", "Dec"]

def PARAMETERS : List String :=
  ["T2M", "T2M_MAX", "T2M_MIN", "PRECTOTCORR",
   "T2M_RANGE", "RH2M", "WS2M", "ALLSKY_SFC_SW_DWN"]

/-- The fixed day-count table `days_per_month` with February at 28.25. -/
def daysPerMonth : List ℚ :=
  [31, 28.25, 31, 30, 31, 30, 31, 31, 30, 31, 30, 31]

/-- Python's round-half-to-even on an exact rational, to an integer. -/
def pyRoundQ (x : ℚ) : ℤ :=
  if x - Int.floor x < 1/2 then Int.floor x
  else if 1/2 < x - Int.floor x then Int.floor x + 1
  else if Even (Int.floor x) then Int.floor x else Int.floor x + 1

/-- Embeds `round(x, n)` on exact rational values. -/
def roundQ (n : ℕ) (x : ℚ) : ℚ :=
  (pyRoundQ (x * 10 ^ n) : ℚ) / 10 ^ n

/-- Python's round-half-to-even on a real value, to an integer. -/
noncomputable def pyRoundR (x : ℝ) : ℤ :=
  if x - Int.floor x < 1/2 then Int.floor x
  else if 1/2 < x - Int.floor x then Int.floor x + 1
  else if Even (Int.floor x) then Int.floor x else Int.floor x + 1

/-- Embeds `round(x, n)` on real values. -/
noncomputable def roundR (n : ℕ) (x : ℝ) : ℝ :=
  (pyRoundR (x * 10 ^ n) : ℝ) / 10 ^ n

/-- Python `min` over a non-empty list (`0` for the empty list, which the
code never reaches). -/
def listMin (l : List ℚ) : ℚ :=
  match l with
  | [] => 0
  | x :: xs => xs.foldl min x

/-- Python `max` over a non-empty list (`0` for the empty list, which the
code never reaches). -/
def listMax (l : List ℚ) : ℚ :=
  match l with
  | [] => 0
  | x :: xs => xs.foldl max x

/-- Embeds the helper `_std`: sample standard deviation with Bessel's
correction, 0 for fewer than 2 values. The variance is an exact rational;
`** 0.5` becomes the real square root. -/
noncomputable def _std (values : List ℚ) : ℝ :=
  if values.length < 2 then 0
  else
    Real.sqrt
      (((values.map (fun x => (x - values.sum / values.length) ^ 2)).sum
        / ((values.length : ℚ) - 1) : ℚ))

/-! ### 4.1 Monthly climatology -/

/-- Per-parameter statistics for one calendar month. -/
structure MonthStats where
  mean : ℚ
  min : ℚ
  max : ℚ
  std : ℝ
  n_years : ℕ

/-- The value list collected for one (parameter, calendar month) pair:
values from every year in range whose entry passes the missing filter. -/
def collectMonth (pd : PData) (sY eY m : ℕ) : List ℚ :=
  (yearRange sY eY).filterMap (fun y => presentVal pd y m)

/-- Same collection at the record level (empty when the parameter is not in
the response, in which case the code skips it). -/
def collectedMonthValues (rec : RawRecord) (p : String) (sY eY m : ℕ) : List ℚ :=
  match rec p with
  | none => []
  | some pd => collectMonth pd sY eY m

/-- The statistics block written under `month_values[param]`. -/
noncomputable def monthParamStats (values : List ℚ) : MonthStats :=
  { mean := roundQ 2 (values.sum / values.length)
    min := roundQ 2 (listMin values)
    max := roundQ 2 (listMax values)
    std := roundR 2 (_std values)
    n_years := values.length }

/-- One parameter's entry in one calendar month's mapping: omitted when the
parameter is absent from the response or when its collected value list is
empty. -/
noncomputable def monthEntry (rec : RawRecord) (sY eY m : ℕ) (p : String) :
    Option (String × MonthStats) :=
  match rec p with
  | none => none
  | some pd =>
    let values := collectMonth pd sY eY m
    if values = [] then none else some (p, monthParamStats values)

/-- One calendar month's parameter mapping `month_values`: parameters in
list order. -/
noncomputable def monthValues (rec : RawRecord) (sY eY m : ℕ) :
    List (String × MonthStats) :=
  PARAMETERS.filterMap (monthEntry rec sY eY m)

/-- The `monthly_climatology` mapping: month names Jan..Dec paired with
month numbers 1..12. -/
noncomputable def monthlyClimatology (rec : RawRecord) (sY eY : ℕ) :
    List (String × List (String × MonthStats)) :=
  (List.range 12).map (fun i =>
    (MONTH_NAMES.getD i (""), monthValues rec sY eY (i + 1)))

/-! ### 4.2 Annual summary -/

/-- The 12-month value list `year_vals` collected for one year. -/
def presentYearVals (pd : PData) (y : ℕ) : List ℚ :=
  monthNums.filterMap (fun m => presentVal pd y m)

/-- One year's contribution to `yearly_means`: requires all 12 months;
precipitation is day-weighted, all other parameters take the mean. -/
def annualYearValue (p : String) (pd : PData) (y : ℕ) : Option ℚ :=
  let year_vals := presentYearVals pd y
  if year_vals.length = 12 then
    some (if p = "PRECTOTCORR"
          then (List.zipWith (fun v d => v * d) year_vals daysPerMonth).sum
          else year_vals.sum / 12)
  else none

/-- The list `yearly_means` for one parameter across the year range. -/
def annualValues (p : String) (pd : PData) (sY eY : ℕ) : List ℚ :=
  (yearRange sY eY).filterMap (annualYearValue p pd)

/-- The statistics block stored in `annual` for one parameter. -/
structure AnnualStats where
  mean : ℚ
  min : ℚ
  max : ℚ
  std : ℝ

/-- The `annual_summary` mapping, with the precipitation label renamed to a
total and every other parameter to a mean. -/
noncomputable def annualSummary (rec : RawRecord) (sY eY : ℕ) :
    List (String × AnnualStats) :=
  PARAMETERS.filterMap (fun p =>
    match rec p with
    | none => none
    | some pd =>
      let yearly_means := annualValues p pd sY eY
      if yearly_means = [] then none
      else
        some (if p = "PRECTOTCORR" then p ++ "_annual_total_mm"
              else p ++ "_annual_mean",
          { mean := roundQ 2 (yearly_means.sum / yearly_means.length)
            min := roundQ 2 (listMin yearly_means)
            max := roundQ 2 (listMax yearly_means)
            std := roundR 2 (_std yearly_means) }))

/-! ### 4.3 Yearly series -/

/-- The `monthly_mean` entry of one year's record for one parameter:
present whenever any month passed the filter. -/
def yearlyMean (pd : PData) (y : ℕ) : Option ℚ :=
  let vals := presentYearVals pd y
  if vals = [] then none
  else some (roundQ 2 (vals.sum / vals.length))

/-- The partial `annual_total_mm` entry for precipitation: the compacted
available-value list zipped positionally against the day table, exactly as
the code's `zip(vals, days_per_month)`. -/
def yearlyPrecipTotal (pd : PData) (y : ℕ) : Option ℚ :=
  let vals := presentYearVals pd y
  if vals = [] then none
  else some (roundQ 1 (List.zipWith (fun v d => v * d) vals daysPerMonth).sum)

/-- One year's `year_record` mapping. -/
def yearlyRecord (rec : RawRecord) (y : ℕ) : List (String × ℚ) :=
  PARAMETERS.flatMap (fun p =>
    match rec p with
    | none => []
    | some pd =>
      match yearlyMean pd y with
      | none => []
      | some mval =>
        (if p = "PRECTOTCORR" then
          match yearlyPrecipTotal pd y with
          | some t => [(p ++ "_annual_total_mm", t)]
          | none => []
         else [])
        ++ [(p ++ "_monthly_mean", mval)])

/-! ### 4.4 Variability analyzer -/

/-- One year's contribution to `annual_precip` in the precipitation
sub-analysis: requires all 12 months, day-weighted total. -/
def precipAnnualTotal (pd : PData) (y : ℕ) : Option ℚ :=
  let year_vals := presentYearVals pd y
  if year_vals.length = 12 then
    some ((List.zipWith (fun v d => v * d) year_vals daysPerMonth).sum)
  else none

/-- The list `annual_precip` across the year range. -/
def annualPrecip (pd : PData) (sY eY : ℕ) : List ℚ :=
  (yearRange sY eY).filterMap (precipAnnualTotal pd)

/-- The local `mean_p = sum(annual_precip) / len(annual_precip)`. -/
def mean_p (l : List ℚ) : ℚ := l.sum / l.length

/-- The local `drought_threshold = mean_p - std_p`. -/
noncomputable def drought_threshold (l : List ℚ) : ℝ :=
  (mean_p l : ℝ) - _std l

/-- The local `wet_threshold = mean_p + std_p`. -/
noncomputable def wet_threshold (l : List ℚ) : ℝ :=
  (mean_p l : ℝ) + _std l

/-- The local `drought_years`: count of totals strictly below the drought
threshold. -/
noncomputable def drought_years (l : List ℚ) : ℕ :=
  l.countP (fun p : ℚ => decide ((p : ℝ) < drought_threshold l))

/-- The local `wet_years`: count of totals strictly above the wet
threshold. -/
noncomputable def wet_years (l : List ℚ) : ℕ :=
  l.countP (fun p : ℚ => decide (wet_threshold l < (p : ℝ)))

/-- The `variability["precipitation"]` block. -/
structure PrecipVar where
  cv : Option ℝ
  drought_frequency : ℚ
  drought_threshold_mm : ℝ
  wet_frequency : ℚ
  wet_threshold_mm : ℝ

/-- Builds the precipitation block from `annual_precip` (lines 223-243):
omitted when the list is empty. -/
noncomputable def precipVarBlock (l : List ℚ) : Option PrecipVar :=
  if l = [] then none
  else
    some
      { cv := if 0 < mean_p l then some (roundR 3 (_std l / (mean_p l : ℝ)))
              else none
        drought_frequency := roundQ 3 ((drought_years l : ℚ) / (l.length : ℚ))
        drought_threshold_mm := roundR 1 (drought_threshold l)
        wet_frequency := roundQ 3 ((wet_years l : ℚ) / (l.length : ℚ))
        wet_threshold_mm := roundR 1 (wet_threshold l) }

/-- Embeds the temperature collection filter `if jan_val != -999`: only the
numeric sentinel is dropped; an explicit null passes and is appended to the
list as-is. -/
def tempKeep (v : RawVal) : Option RawVal :=
  if v = RawVal.num (-999) then none else some v

/-- The collected `jan_temps` list (raw entries, possibly null). -/
def janTemps (pd : PData) (sY eY : ℕ) : List RawVal :=
  (yearRange sY eY).filterMap (fun y => tempKeep (getRaw pd y 1))

/-- The collected `jul_temps` list (raw entries, possibly null). -/
def julTemps (pd : PData) (sY eY : ℕ) : List RawVal :=
  (yearRange sY eY).filterMap (fun y => tempKeep (getRaw pd y 7))

/-- Extracts the numbers of a collected list; `none` when any element is a
null, in which case Python's arithmetic on the list raises TypeError. -/
def asNums (l : List RawVal) : Option (List ℚ) :=
  l.mapM (fun v => match v with
    | RawVal.num q => some q
    | RawVal.null => none)

/-- The `variability["temperature"]` block. -/
structure TempVar where
  jan_mean_std : ℝ
  jul_mean_std : ℝ
  thermal_amplitude_mean : ℚ

/-- Builds the temperature block: omitted when either collected list is
empty; raises (models the uncaught TypeError on a null element) otherwise
whenever a null made it into a list. -/
noncomputable def tempVarBlock (pd : PData) (sY eY : ℕ) :
    Except String (Option TempVar) :=
  let jul := julTemps pd sY eY
  let jan := janTemps pd sY eY
  if jul = [] ∨ jan = [] then Except.ok none
  else
    match asNums jan, asNums jul with
    | some janQ, some julQ =>
      Except.ok (some
        { jan_mean_std := roundR 2 (_std janQ)
          jul_mean_std := roundR 2 (_std julQ)
          thermal_amplitude_mean :=
            roundQ 2 (julQ.sum / julQ.length - janQ.sum / janQ.length) })
    | _, _ => Except.error ("TypeError")

/-- Embeds `_compute_variability`: precipitation block (when PRECTOTCORR is
in the response), then temperature block (when T2M is in the response). -/
noncomputable def computeVariability (rec : RawRecord) (sY eY : ℕ) :
    Except String (Option PrecipVar × Option TempVar) :=
  let pBlock :=
    match rec ("PRECTOTCORR") with
    | none => none
    | some pd => precipVarBlock (annualPrecip pd sY eY)
  match rec ("T2M") with
  | none => Except.ok (pBlock, none)
  | some pd =>
    match tempVarBlock pd sY eY with
    | Except.error e => Except.error e
    | Except.ok t => Except.ok (pBlock, t)

/-! ### 4.6 Assembler / batch loop -/

/-- The full climate profile returned by `process_monthly_data`. -/
structure Profile where
  monthly_climatology : List (String × List (String × MonthStats))
  annual_summary : List (String × AnnualStats)
  yearly_data : List (ℕ × List (String × ℚ))
  variability : Option PrecipVar × Option TempVar

/-- Embeds `process_monthly_data`: the argument is
`api_response["properties"]["parameter"]` when present (`none` models the
KeyError raised on a malformed response); the temperature sub-analysis may
raise, aborting the whole call. -/
noncomputable def processMonthlyData (api : Option RawRecord) (sY eY : ℕ) :
    Except String Profile :=
  match api with
  | none => Except.error ("KeyError")
  | some rec =>
    match computeVariability rec sY eY with
    | Except.error e => Except.error e
    | Except.ok v =>
      Except.ok
        { monthly_climatology := monthlyClimatology rec sY eY
          annual_summary := annualSummary rec sY eY
          yearly_data := (yearRange sY eY).map (fun y => (y, yearlyRecord rec y))
          variability := v }

/-- A zone's representative point. -/
structure Point where
  lat : ℚ
  lon : ℚ
  label : String
deriving DecidableEq

/-- A registry entry: `zone_data["name"]` and the representative point. -/
structure ZoneInfo where
  name : String
  pt : Point
deriving DecidableEq

/-- The per-zone output document: either a success document with a climate
profile or an error document holding only the caught exception's message
(no climate_profile field). -/
inductive ZoneDoc where
  | ok (zone_name : String) (representative_point : Point) (climate_profile : Profile)
  | err (zone_name : String) (representative_point : Point) (error : String)

/-- The body of the try-block for one zone: fetch, then process; any raise
in either step propagates to the handler. -/
noncomputable def pipelineResult (fetch : String → Except String (Option RawRecord))
    (sY eY : ℕ) (zid : String) : Except String Profile :=
  match fetch zid with
  | Except.error e => Except.error e
  | Except.ok raw => processMonthlyData raw sY eY

/-- One loop iteration of `main`: the caught exception becomes an error
document, success becomes a full document. -/
noncomputable def zoneEntry (fetch : String → Except String (Option RawRecord))
    (sY eY : ℕ) (zid : String) (zi : ZoneInfo) : ZoneDoc :=
  match pipelineResult fetch sY eY zid with
  | Except.error e => ZoneDoc.err zi.name zi.pt e
  | Except.ok profile => ZoneDoc.ok zi.name zi.pt profile

/-- The batch loop of `main`: iterates the registry in order, appending one
document per zone to `climate_profiles["zones"]`. -/
noncomputable def buildZones (fetch : String → Except String (Option RawRecord))
    (registry : List (String × ZoneInfo)) (sY eY : ℕ) :
    List (String × ZoneDoc) :=
  registry.foldl (fun acc z => acc ++ [(z.1, zoneEntry fetch sY eY z.1 z.2)]) []

/-! ### Concrete fixtures used to instantiate the theorems -/

/-- A record year 2021 with all 12 precipitation months equal to 1 mm/day. -/
def pdOnes : PData := fun y m =>
  if y = 2021 ∧ 1 ≤ m ∧ m ≤ 12 then some (RawVal.num 1) else none

/-- A record year 2021 with months Jan..Nov present (value 2), December
missing: an 11-of-12 coverage year. -/
def pdEleven : PData := fun y m =>
  if y = 2021 ∧ 1 ≤ m ∧ m ≤ 11 then some (RawVal.num 2) else none

/-- A record whose only non-missing precipitation entry is February 2021
with value 1 mm/day. -/
def pdFebOnly : PData := fun y m =>
  if y = 2021 ∧ m = 2 then some (RawVal.num 1) else none

/-- A temperature mapping whose January 2021 entry is an explicit null and
whose July 2021 entry is 20. -/
def pdNullJan : PData := fun y m =>
  if y = 2021 ∧ m = 1 then some RawVal.null
  else if y = 2021 ∧ m = 7 then some (RawVal.num 20) else none

/-- A record carrying only a July 2021 temperature value. -/
def pdJulOnly : PData := fun y m =>
  if y = 2021 ∧ m = 7 then some (RawVal.num 25) else none

/-- A response whose only parameter is T2M with July 2021 data. -/
def recJulOnly : RawRecord := fun s =>
  if s = "T2M" then some pdJulOnly else none

/-- The annual-total list of the spec's worked variability example. -/
def totalsEx : List ℚ := [100, 100, 100, 100, 500]

/-- An empty response (no parameters), used for a successfully processed
zone. -/
def recEmpty : RawRecord := fun _ => none

/-- Two registry zones for the batch-loop claim. -/
def ziOne : ZoneInfo := { name := "Zone One", pt := { lat := 31, lon := -7, label := "A" } }

def ziTwo : ZoneInfo := { name := "Zone Two", pt := { lat := 34, lon := -5, label := "B" } }

def registryEx : List (String × ZoneInfo) := [("z1", ziOne), ("z2", ziTwo)]

/-- A fetch collaborator that raises a transport error for zone z1 and
succeeds for every other zone. -/
def fetchEx : String → Except String (Option RawRecord) := fun zid =>
  if zid = "z1" then Except.error ("HTTP Error 503") else Except.ok (some recEmpty)

/-! ### Helper lemmas -/

lemma std_nonneg (l : List ℚ) : 0 ≤ _std l := by
  unfold _std
  split
  · exact le_refl 0
  · exact Real.sqrt_nonneg _

lemma filterMap_filter_ne {f : ℕ → Option ℚ} {y : ℕ} (hy : f y = none) :
    ∀ l : List ℕ, (l.filter (fun z => z ≠ y)).filterMap f = l.filterMap f := by
  intro l
  induction l with
  | nil => rfl
  | cons a t ih =>
    by_cases ha : a = y
    · subst ha
      rw [List.filter_cons_of_neg (by simp), ih, List.filterMap_cons, hy]
    · rw [List.filter_cons_of_pos (by simp [ha]), List.filterMap_cons,
        List.filterMap_cons, ih]

/-! ### Claims -/

/-- C7: the shared sample-standard-deviation helper returns exactly 0 for
every list of fewer than 2 values, exactly 0 for two equal values, uses
Bessel's (n-1) denominator under the square root for 2 or more values, and
is always a well-defined non-negative real (never undefined/NaN). -/
theorem claim_C7 :
    (∀ v : List ℚ, v.length < 2 → _std v = 0) ∧
    (∀ a : ℚ, _std [a, a] = 0) ∧
    (∀ v : List ℚ, 2 ≤ v.length →
      _std v = Real.sqrt (((v.map (fun x => (x - v.sum / v.length) ^ 2)).sum
        / ((v.length : ℚ) - 1) : ℚ))) ∧
    (∀ v : List ℚ, 0 ≤ _std v) := by
  refine ⟨?_, ?_, ?_, std_nonneg⟩
  · intro v h
    simp [_std, h]
  · intro a
    have h2 : ¬([a, a] : List ℚ).length < 2 := by simp
    rw [_std, if_neg h2]
    have hz : ((([a, a] : List ℚ).map
        (fun x => (x - ([a, a] : List ℚ).sum / ([a, a] : List ℚ).length) ^ 2)).sum
        / ((([a, a] : List ℚ).length : ℚ) - 1)) = 0 := by
      simp
    rw [hz]
    simp
  · intro v h
    rw [_std, if_neg (by omega)]

/-- C7 witness: the helper at concrete inputs, a singleton list and a pair
of equal values. -/
theorem claim_C7_witness :
    _std [(3 : ℚ)] = 0 ∧ _std [(5 : ℚ), 5] = 0 :=
  ⟨claim_C7.1 [3] (by simp), claim_C7.2.1 5⟩

/-- C5: for every raw parameter mapping and year range, the list of
full-coverage annual precipitation totals built by the variability
analyzer equals, element for element, the list of per-year precipitation
totals built by the annual summary for the precipitation parameter. -/
theorem claim_C5 (pd : PData) (sY eY : ℕ) :
    annualPrecip pd sY eY = annualValues ("PRECTOTCORR") pd sY eY := by
  have hfn : precipAnnualTotal pd = annualYearValue ("PRECTOTCORR") pd := by
    funext y
    simp [precipAnnualTotal, annualYearValue]
  simp only [annualPrecip, annualValues, hfn]

/-- C1: a year with exactly 11 of its 12 monthly values present contributes
nothing to the annual summary for any parameter (its per-year value is
`none`, and deleting the year from the range leaves `yearly_means`
unchanged), while the yearly series includes the year with the arithmetic
mean of the 11 available values rounded to 2 decimals. -/
theorem claim_C1 (p : String) (pd : PData) (y : ℕ)
    (h : (presentYearVals pd y).length = 11) :
    annualYearValue p pd y = none ∧
    (∀ sY eY, annualValues p pd sY eY =
      ((yearRange sY eY).filter (fun z => z ≠ y)).filterMap (annualYearValue p pd)) ∧
    yearlyMean pd y = some (roundQ 2 ((presentYearVals pd y).sum / 11)) := by
  have hnone : annualYearValue p pd y = none := by
    simp only [annualYearValue, h]
    norm_num
  refine ⟨hnone, ?_, ?_⟩
  · intro sY eY
    exact (filterMap_filter_ne hnone (yearRange sY eY)).symm
  · have hne : presentYearVals pd y ≠ [] := by
      intro hc
      rw [hc] at h
      simp at h
    simp only [yearlyMean, if_neg hne, h]
    norm_num

/-- C1 witness: a concrete record whose 2021 has January..November present
(value 2) and December missing. -/
theorem claim_C1_witness :
    (presentYearVals pdEleven 2021).length = 11 ∧
    (annualYearValue ("T2M") pdEleven 2021 = none ∧
      (∀ sY eY, annualValues ("T2M") pdEleven sY eY =
        ((yearRange sY eY).filter (fun z => z ≠ 2021)).filterMap
          (annualYearValue ("T2M") pdEleven)) ∧
      yearlyMean pdEleven 2021 =
        some (roundQ 2 ((presentYearVals pdEleven 2021).sum / 11))) :=
  ⟨by decide, claim_C1 ("T2M") pdEleven 2021 (by decide)⟩

lemma lookup_filterMap_keyed {α : Type} {g : String → Option (String × α)}
    (hg : ∀ q pr, g q = some pr → pr.1 = q) {p : String} (hp : g p = none) :
    ∀ l : List String, List.lookup p (l.filterMap g) = none := by
  intro l
  induction l with
  | nil => rfl
  | cons q t ih =>
    cases hq : g q with
    | none => rw [List.filterMap_cons, hq]; exact ih
    | some pr =>
      obtain ⟨k, s⟩ := pr
      have hk : k = q := hg q (k, s) hq
      subst hk
      have hpq : p ≠ k := by
        intro he
        rw [← he] at hq
        rw [hp] at hq
        cases hq
      rw [List.filterMap_cons, hq]
      simp only [List.lookup]
      rw [beq_eq_false_iff_ne.mpr hpq]
      exact ih

/-- C9: whenever a (calendar month, parameter) pair collects no value from
any year in range, the parameter key is entirely absent from that month's
climatology mapping — the lookup yields nothing rather than a zero or
placeholder entry. -/
theorem claim_C9 (rec : RawRecord) (p : String) (sY eY m : ℕ)
    (h : collectedMonthValues rec p sY eY m = []) :
    List.lookup p (monthValues rec sY eY m) = none := by
  unfold monthValues
  apply lookup_filterMap_keyed
  · intro q pr hq
    simp only [monthEntry] at hq
    cases hrq : rec q with
    | none => rw [hrq] at hq; cases hq
    | some pd =>
      rw [hrq] at hq
      by_cases hv : collectMonth pd sY eY m = []
      · simp only [hv, if_pos] at hq
        cases hq
      · simp only [if_neg hv] at hq
        injection hq with hpr
        rw [← hpr]
  · simp only [monthEntry]
    cases hrp : rec p with
    | none => rfl
    | some pd =>
      have hcm : collectMonth pd sY eY m = [] := by
        simpa [collectedMonthValues, hrp] using h
      simp [hcm]

/-- C9 witness: a record carrying only July temperature data collects
nothing for January, and T2M is absent from January's mapping. -/
theorem claim_C9_witness :
    collectedMonthValues recJulOnly ("T2M") 2021 2021 1 = [] ∧
    List.lookup ("T2M") (monthValues recJulOnly 2021 2021 1) = none :=
  ⟨by decide, claim_C9 recJulOnly ("T2M") 2021 2021 1 (by decide)⟩

/-- C2 counterexample: for a qualifying year with 1.0 mm/day in all 12
months, the annual-summary conversion yields 365.25, not the 365.0 the
claim states. -/
theorem claim_C2_counterexample :
    annualYearValue ("PRECTOTCORR") pdOnes 2021 = some (365.25 : ℚ) ∧
    (365.25 : ℚ) ≠ 365 := by
  constructor
  · have h : presentYearVals pdOnes 2021 = [1, 1, 1, 1, 1, 1, 1, 1, 1, 1, 1, 1] := by
      decide
    simp only [annualYearValue, h, daysPerMonth]
    norm_num
  · norm_num

/-- C2 (amended): for a qualifying year whose precipitation value is
exactly 1.0 mm/day in all 12 months, the day-weighted annual total equals
the sum of the fixed day-count table, which is 365.25. -/
theorem claim_C2 (pd : PData) (y : ℕ)
    (h : ∀ m ∈ monthNums, presentVal pd y m = some 1) :
    annualYearValue ("PRECTOTCORR") pd y = some daysPerMonth.sum ∧
    daysPerMonth.sum = 365.25 := by
  have hm : monthNums = [1, 2, 3, 4, 5, 6, 7, 8, 9, 10, 11, 12] := by decide
  have hv : presentYearVals pd y = [1, 1, 1, 1, 1, 1, 1, 1, 1, 1, 1, 1] := by
    rw [presentYearVals, hm]
    rw [List.filterMap_cons, h 1 (by rw [hm]; simp),
      List.filterMap_cons, h 2 (by rw [hm]; simp),
      List.filterMap_cons, h 3 (by rw [hm]; simp),
      List.filterMap_cons, h 4 (by rw [hm]; simp),
      List.filterMap_cons, h 5 (by rw [hm]; simp),
      List.filterMap_cons, h 6 (by rw [hm]; simp),
      List.filterMap_cons, h 7 (by rw [hm]; simp),
      List.filterMap_cons, h 8 (by rw [hm]; simp),
      List.filterMap_cons, h 9 (by rw [hm]; simp),
      List.filterMap_cons, h 10 (by rw [hm]; simp),
      List.filterMap_cons, h 11 (by rw [hm]; simp),
      List.filterMap_cons, h 12 (by rw [hm]; simp)]
    rfl
  constructor
  · simp only [annualYearValue, hv, daysPerMonth]
    norm_num
  · norm_num [daysPerMonth]

/-- C2 witness: the all-ones 2021 precipitation record. -/
theorem claim_C2_witness :
    (∀ m ∈ monthNums, presentVal pdOnes 2021 m = some 1) ∧
    (annualYearValue ("PRECTOTCORR") pdOnes 2021 = some daysPerMonth.sum ∧
      daysPerMonth.sum = 365.25) :=
  ⟨by decide, claim_C2 pdOnes 2021 (by decide)⟩

/-- C3: evaluating the yearly-series partial precipitation total at a year
whose only available month is February (value 1.0 mm/day) yields 31.0 — the
first table entry, January's 31 days — instead of the 28.2 that weighting
February's value by its own table entry (28.25) would give. This exhibits
the positional zip of the compacted value list against the day table. -/
theorem claim_C3 :
    yearlyPrecipTotal pdFebOnly 2021 = some 31 ∧
    roundQ 1 ((1 : ℚ) * (28.25 : ℚ)) = 28.2 ∧
    (31 : ℚ) ≠ 28.2 := by
  refine ⟨?_, ?_, by norm_num⟩
  · have h : presentYearVals pdFebOnly 2021 = [1] := by decide
    simp only [yearlyPrecipTotal, h, daysPerMonth]
    norm_num [roundQ, pyRoundQ]
  · norm_num [roundQ, pyRoundQ, Int.even_iff]

/-- C4: with January 2021 an explicit null and July 2021 numeric, the
monthly/annual/yearly collection filter excludes the null, but the
temperature sub-analysis keeps it in the collected January list (it only
filters the -999 sentinel), and the subsequent statistics computation
fails instead of ignoring the value. -/
theorem claim_C4 :
    presentVal pdNullJan 2021 1 = none ∧
    collectMonth pdNullJan 2021 2021 1 = [] ∧
    janTemps pdNullJan 2021 2021 = [RawVal.null] ∧
    tempVarBlock pdNullJan 2021 2021 = Except.error ("TypeError") :=
  ⟨by decide, by decide, by decide, rfl⟩

lemma foldl_append_map {α β : Type} (g : α → β) (l : List α) :
    ∀ acc : List β, l.foldl (fun a z => a ++ [g z]) acc = acc ++ l.map g := by
  induction l with
  | nil => intro acc; simp
  | cons x t ih =>
    intro acc
    simp only [List.foldl_cons, List.map_cons, ih, List.append_assoc,
      List.singleton_append]

/-- C8: the batch loop emits exactly one document per registry zone, in
registry order; each zone's document depends only on that zone's own
pipeline outcome (so one zone's failure leaves the others unaffected); and
a zone whose fetch-or-process pipeline raises yields exactly the error
document carrying zone name, representative point and the exception's
message, with no climate-profile field. -/
theorem claim_C8 (fetch : String → Except String (Option RawRecord))
    (registry : List (String × ZoneInfo)) (sY eY : ℕ) :
    buildZones fetch registry sY eY =
      registry.map (fun z => (z.1, zoneEntry fetch sY eY z.1 z.2)) ∧
    (buildZones fetch registry sY eY).map Prod.fst = registry.map Prod.fst ∧
    (buildZones fetch registry sY eY).length = registry.length ∧
    (∀ zid zi e, (zid, zi) ∈ registry →
      pipelineResult fetch sY eY zid = Except.error e →
      (zid, ZoneDoc.err zi.name zi.pt e) ∈ buildZones fetch registry sY eY) := by
  have hmap : buildZones fetch registry sY eY =
      registry.map (fun z => (z.1, zoneEntry fetch sY eY z.1 z.2)) := by
    unfold buildZones
    rw [foldl_append_map]
    simp
  refine ⟨hmap, ?_, ?_, ?_⟩
  · rw [hmap, List.map_map]
    rfl
  · rw [hmap, List.length_map]
  · intro zid zi e hmem herr
    rw [hmap]
    have hz : (fun z : String × ZoneInfo => (z.1, zoneEntry fetch sY eY z.1 z.2)) (zid, zi)
        = (zid, ZoneDoc.err zi.name zi.pt e) := by
      simp [zoneEntry, herr]
    exact hz ▸ List.mem_map_of_mem _ hmem

/-- C8 witness: a two-zone registry whose first zone's fetch raises a
transport error; the error document for it is in the batch output. -/
theorem claim_C8_witness :
    (("z1", ziOne) ∈ registryEx) ∧
    pipelineResult fetchEx 2021 2021 ("z1") = Except.error ("HTTP Error 503") ∧
    (("z1"), ZoneDoc.err ziOne.name ziOne.pt ("HTTP Error 503")) ∈
      buildZones fetchEx registryEx 2021 2021 := by
  refine ⟨by simp [registryEx], rfl, ?_⟩
  exact (claim_C8 fetchEx registryEx 2021 2021).2.2.2 ("z1") ziOne
    ("HTTP Error 503") (by simp [registryEx]) rfl

lemma countP_add_le {α : Type} (p q : α → Bool)
    (hpq : ∀ x, p x = true → q x = false) :
    ∀ l : List α, l.countP p + l.countP q ≤ l.length := by
  intro l
  induction l with
  | nil => simp
  | cons a t ih =>
    rw [List.countP_cons, List.countP_cons, List.length_cons]
    by_cases hpa : p a = true
    · rw [hpa, hpq a hpa, if_pos rfl, if_neg (by simp)]
      omega
    · rw [eq_false_of_ne_true hpa, if_neg (by simp)]
      cases hqa : q a
      · rw [if_neg (by simp)]
        omega
      · rw [if_pos rfl]
        omega

/-- C10: whenever the qualifying annual-total list is non-empty, the
unrounded drought and wet frequencies each lie in [0, 1] and sum to at
most 1: no total is simultaneously strictly below mean minus std and
strictly above mean plus std, because the sample standard deviation is
non-negative. -/
theorem claim_C10 (l : List ℚ) (h : l ≠ []) :
    0 ≤ (drought_years l : ℚ) / l.length ∧
    (drought_years l : ℚ) / l.length ≤ 1 ∧
    0 ≤ (wet_years l : ℚ) / l.length ∧
    (wet_years l : ℚ) / l.length ≤ 1 ∧
    (drought_years l : ℚ) / l.length + (wet_years l : ℚ) / l.length ≤ 1 := by
  have hn : 0 < l.length := List.length_pos.mpr h
  have hnQ : (0 : ℚ) < (l.length : ℚ) := by exact_mod_cast hn
  have hd_le : drought_years l ≤ l.length := by
    unfold drought_years
    exact List.countP_le_length _
  have hw_le : wet_years l ≤ l.length := by
    unfold wet_years
    exact List.countP_le_length _
  have hdisj : drought_years l + wet_years l ≤ l.length := by
    unfold drought_years wet_years
    apply countP_add_le
    intro x hx
    have h1 : (x : ℝ) < drought_threshold l := of_decide_eq_true hx
    apply decide_eq_false
    intro h2
    have hs := std_nonneg l
    rw [drought_threshold] at h1
    rw [wet_threshold] at h2
    linarith
  refine ⟨?_, ?_, ?_, ?_, ?_⟩
  · exact div_nonneg (by positivity) (le_of_lt hnQ)
  · exact (div_le_one hnQ).mpr (by exact_mod_cast hd_le)
  · exact div_nonneg (by positivity) (le_of_lt hnQ)
  · exact (div_le_one hnQ).mpr (by exact_mod_cast hw_le)
  · rw [div_add_div_same]
    refine (div_le_one hnQ).mpr ?_
    have : ((drought_years l + wet_years l : ℕ) : ℚ) ≤ (l.length : ℚ) := by
      exact_mod_cast hdisj
    push_cast at this
    linarith

/-- C10 witness: a singleton total list. -/
theorem claim_C10_witness :
    (([(100 : ℚ)] : List ℚ) ≠ []) ∧
    (0 ≤ (drought_years [(100 : ℚ)] : ℚ) / ([(100 : ℚ)] : List ℚ).length ∧
      (drought_years [(100 : ℚ)] : ℚ) / ([(100 : ℚ)] : List ℚ).length ≤ 1 ∧
      0 ≤ (wet_years [(100 : ℚ)] : ℚ) / ([(100 : ℚ)] : List ℚ).length ∧
      (wet_years [(100 : ℚ)] : ℚ) / ([(100 : ℚ)] : List ℚ).length ≤ 1 ∧
      (drought_years [(100 : ℚ)] : ℚ) / ([(100 : ℚ)] : List ℚ).length +
        (wet_years [(100 : ℚ)] : ℚ) / ([(100 : ℚ)] : List ℚ).length ≤ 1) :=
  ⟨by simp, claim_C10 [(100 : ℚ)] (by simp)⟩

lemma pyRoundR_eq_of {x : ℝ} {n : ℤ} (h1 : (n : ℝ) - 1/2 < x) (h2 : x < (n : ℝ) + 1/2) :
    pyRoundR x = n := by
  rcases le_or_lt (n : ℝ) x with hnx | hxn
  · have hf : Int.floor x = n := by
      rw [Int.floor_eq_iff]
      constructor
      · exact hnx
      · linarith
    unfold pyRoundR
    rw [hf, if_pos (by linarith)]
  · have hf : Int.floor x = n - 1 := by
      rw [Int.floor_eq_iff]
      constructor
      · push_cast
        linarith
      · push_cast
        linarith
    unfold pyRoundR
    rw [hf, if_neg (by push_cast; linarith), if_pos (by push_cast; linarith)]
    omega

lemma sqrt32000_lb : (178.85 : ℝ) < Real.sqrt 32000 :=
  (Real.lt_sqrt (by norm_num)).mpr (by norm_num)

lemma sqrt32000_ub : Real.sqrt 32000 < 178.95 :=
  (Real.sqrt_lt' (by norm_num)).mpr (by norm_num)

lemma mean_totalsEx : mean_p totalsEx = 180 := by
  norm_num [mean_p, totalsEx]

lemma std_totalsEx : _std totalsEx = Real.sqrt 32000 := by
  rw [_std, if_neg (by norm_num [totalsEx])]
  have hX : ((totalsEx.map (fun x => (x - totalsEx.sum / totalsEx.length) ^ 2)).sum
      / ((totalsEx.length : ℚ) - 1)) = 32000 := by
    norm_num [totalsEx]
  rw [hX]
  norm_num

lemma dt_totalsEx : drought_threshold totalsEx = 180 - Real.sqrt 32000 := by
  rw [drought_threshold, mean_totalsEx, std_totalsEx]
  norm_num

lemma wt_totalsEx : wet_threshold totalsEx = 180 + Real.sqrt 32000 := by
  rw [wet_threshold, mean_totalsEx, std_totalsEx]
  norm_num

lemma dy_totalsEx : drought_years totalsEx = 0 := by
  unfold drought_years
  apply List.countP_eq_zero.mpr
  intro a ha
  have hA : a = 100 ∨ a = 500 := by
    simp [totalsEx] at ha
    tauto
  have hlb := sqrt32000_lb
  rw [dt_totalsEx]
  simp only [decide_eq_true_eq]
  rcases hA with h | h <;> subst h <;> push_cast <;> intro hc <;> linarith

lemma wy_totalsEx : wet_years totalsEx = 1 := by
  unfold wet_years
  simp only [wt_totalsEx]
  have h100 : decide ((180 : ℝ) + Real.sqrt 32000 < ((100 : ℚ) : ℝ)) = false := by
    apply decide_eq_false
    push_cast
    have := sqrt32000_lb
    intro hc
    linarith
  have h500 : decide ((180 : ℝ) + Real.sqrt 32000 < ((500 : ℚ) : ℝ)) = true := by
    apply decide_eq_true
    push_cast
    have := sqrt32000_ub
    linarith
  show List.countP _ ((100 : ℚ) :: 100 :: 100 :: 100 :: 500 :: []) = 1
  rw [List.countP_cons, List.countP_cons, List.countP_cons, List.countP_cons,
    List.countP_cons, List.countP_nil]
  rw [h100, h500]
  simp

/-- C6: on the qualifying annual-total list [100, 100, 100, 100, 500]
(mean 180, sample standard deviation the square root of 32000, about
178.9), the precipitation variability block reports drought threshold
1.1 mm, drought frequency 0, wet threshold 358.9 mm and wet frequency
0.2. -/
theorem claim_C6 :
    (precipVarBlock totalsEx).map PrecipVar.drought_threshold_mm = some (1.1 : ℝ) ∧
    (precipVarBlock totalsEx).map PrecipVar.drought_frequency = some 0 ∧
    (precipVarBlock totalsEx).map PrecipVar.wet_threshold_mm = some (358.9 : ℝ) ∧
    (precipVarBlock totalsEx).map PrecipVar.wet_frequency = some (0.2 : ℚ) := by
  have hne : totalsEx ≠ [] := by simp [totalsEx]
  have hlb := sqrt32000_lb
  have hub := sqrt32000_ub
  rw [precipVarBlock, if_neg hne]
  simp only [Option.map_some']
  refine ⟨?_, ?_, ?_, ?_⟩
  · refine congrArg some ?_
    show roundR 1 (drought_threshold totalsEx) = (1.1 : ℝ)
    rw [dt_totalsEx, roundR]
    rw [pyRoundR_eq_of (n := 11) (by push_cast; linarith) (by push_cast; linarith)]
    norm_num
  · refine congrArg some ?_
    show roundQ 3 ((drought_years totalsEx : ℚ) / (totalsEx.length : ℚ)) = 0
    rw [dy_totalsEx]
    norm_num [roundQ, pyRoundQ, totalsEx]
  · refine congrArg some ?_
    show roundR 1 (wet_threshold totalsEx) = (358.9 : ℝ)
    rw [wt_totalsEx, roundR]
    rw [pyRoundR_eq_of (n := 3589) (by push_cast; linarith) (by push_cast; linarith)]
    norm_num
  · refine congrArg some ?_
    show roundQ 3 ((wet_years totalsEx : ℚ) / (totalsEx.length : ℚ)) = (0.2 : ℚ)
    rw [wy_totalsEx]
    norm_num [roundQ, pyRoundQ, totalsEx]

end ClimateFetch
